import Mathlib

/-!
Shallow embedding of the conversational core of `src/api/telegram.py`
(a Telegram webhook bot): the per-chat session store, the text/document
handlers that implement the per-chat state machine, the command dispatch
of `process_update`, and the PIN generation / uniqueness protocol.

External collaborators (Telegram HTTP API, the message relay, yt-dlp,
Firestore, Gemini) are modelled as oracle fields of a `Collab` record:
each handler receives the collaborator outcomes as data and we quantify
over all of them.  Outbound messages and collaborator invocations are
recorded in an ordered trace of `Act` values, so properties such as
"the terminal action was invoked" are statements about the trace.
-/

/-! ## Python string primitives used by the source -/

/-- `needle` occurs at the start of `hay` (character-list matcher). -/
def matchesAt : List Char → List Char → Bool
  | [], _ => true
  | _ :: _, [] => false
  | a :: as, b :: bs => a == b && matchesAt as bs

/-- `needle` occurs somewhere inside `hay`: Python's `needle in hay`. -/
def hasSub (needle : List Char) : List Char → Bool
  | [] => needle.isEmpty
  | b :: bs => matchesAt needle (b :: bs) || hasSub needle bs

/-- Python `needle in hay` on strings. -/
def pyContains (hay needle : String) : Bool :=
  hasSub needle.data hay.data

/-- Python `s.startswith(pre)`. -/
def pyStartsWith (s pre : String) : Bool :=
  matchesAt pre.data s.data

/-- Python `len(s)` (number of characters). -/
def pyLen (s : String) : Nat := s.data.length

/-- Python `s.isdigit()`: non-empty and every character a digit. -/
def pyIsDigit (s : String) : Bool :=
  !s.data.isEmpty && s.data.all Char.isDigit

/-- Python `s.upper()`. -/
def pyUpper (s : String) : String :=
  String.mk (s.data.map Char.toUpper)

/-- Python `text.split()[0]` for a string starting with a non-space
character: the longest prefix free of whitespace
(used by `process_update` to extract the command token). -/
def firstToken (s : String) : String :=
  String.mk (s.data.takeWhile fun ch => !ch.isWhitespace)

/-! ## Session store (`user_sessions: Dict[int, Dict[str, Any]]`) -/

/-- One chat's in-progress workflow: the `{"state": ..., "command": ...}`
dict of the source, with the optional `"phone"` field collected by the
send-message workflow. -/
structure Session where
  command : String
  state : String
  phone : Option String
deriving DecidableEq, Repr

/-- The process-wide `user_sessions` map, chat id to session. -/
def Store := Int → Option Session

/-- The empty store (fresh process). -/
def Store.empty : Store := fun _ => none

/-- `user_sessions[chat_id] = s`. -/
def Store.set (st : Store) (chatId : Int) (s : Session) : Store :=
  fun c => if c = chatId then some s else st c

/-- `del user_sessions[chat_id]`. -/
def Store.del (st : Store) (chatId : Int) : Store :=
  fun c => if c = chatId then none else st c

/-! ## Outbound messages and collaborator actions -/

/-- Families of outbound texts sent with `send_telegram_message`; each
constructor tags one distinct literal of the source. -/
inductive Msg where
  | startHelp
  | promptPhone
  | invalidPhone
  | promptBody
  | sendingMsg
  | msgSentOk
  | msgSentFail
  | promptYtUrl
  | invalidYtUrl
  | promptUrl
  | invalidUrl
  | promptUpload
  | promptPin
  | promptAiQuery
  | cancelled
  | nothingToCancel
  | useCommand
  | unknownCommand
  | useUploadCommand
  | fileInfoErr
  | uploadOk (pin : String)
  | uploadFail
  | pinNotFound
  | fileSentOk
  | fileSentFail
  | aiAnswer (t : String)
deriving DecidableEq, Repr

/-- One observable step of a handler: an outbound message or an
invocation of an external collaborator. -/
inductive Act where
  | sendMsg (chatId : Int) (m : Msg)
  | relay (number : Option String) (body : String)
  | ytFetch (url : String)
  | urlFetch (url : String)
  | pinLookup (pin : String)
  | aiQuery (q : String)
  | storeFile (fileData filename : String)
  | sendDoc (chatId : Int) (filename : String)
deriving DecidableEq, Repr

/-- The terminal actions of the six workflows (relay call, video
download, URL download, pin lookup, AI query, blob storage, document
send); plain outbound texts are not terminal. -/
def Act.isTerminal : Act → Bool
  | Act.sendMsg _ _ => false
  | Act.relay _ _ => true
  | Act.ytFetch _ => true
  | Act.urlFetch _ => true
  | Act.pinLookup _ => true
  | Act.aiQuery _ => true
  | Act.storeFile _ _ => true
  | Act.sendDoc _ _ => true

/-- Outcome of the fallible Telegram file-fetch preamble of
`handle_document` (lines 440-458): the `getFile` call can raise, return
`ok: false`, or succeed and the content download can raise or yield the
file bytes. -/
inductive DocStep where
  | infoRaise
  | infoNotOk
  | fileRaise
  | fetched (content : String)
deriving DecidableEq, Repr

/-- Oracle record for all external collaborators: their responses are
inputs to every run. `geminiClient` and `filesCollection` model whether
the corresponding globals were initialized at startup. -/
structure Collab where
  relayResult : Option String → String → Bool
  pinRecord : String → Option (String × String)
  docSendOk : Int → String → Bool
  geminiClient : Bool
  aiGenerate : String → Except Unit (Option String)
  filesCollection : Bool
  storeResult : String → String → Option String
  docInfo : String → DocStep

/-! ## PIN generation (`generate_pin`, `is_pin_unique`, `generate_unique_pin`) -/

/-- `string.ascii_uppercase + string.digits`. -/
def PIN_CHARS : List Char := "ABCDEFGHIJKLMNOPQRSTUVWXYZ0123456789".data

/-- One `random.choice(characters)` draw, fed by a raw random number:
always an element of the alphabet. -/
def pinChar (n : Nat) : Char := PIN_CHARS.getD (n % 36) 'A'

/-- `generate_pin(length)`: `length` consecutive draws from the random
stream `r`, starting at offset `off`. -/
def generate_pin (r : Nat → Nat) (off : Nat) (length : Nat) : String :=
  String.mk ((List.range length).map fun i => pinChar (r (off + i)))

/-- `is_pin_unique(pin)`: false when Firestore is absent, false when the
query raises (fails closed), else whether no document matched. -/
def is_pin_unique (collectionPresent : Bool) (query : String → Except Unit Bool)
    (pin : String) : Bool :=
  if !collectionPresent then false
  else
    match query pin with
    | Except.error _ => false
    | Except.ok b => b

/-- The attempt loop of `generate_unique_pin`, with remaining fuel:
draw a candidate, check it, return it when unique, else advance the
random stream and retry; out of fuel, draw one more fresh candidate
(line 90 of the source).  The second component counts the
`is_pin_unique` calls performed. -/
def generate_unique_pin_from (cp : Bool) (query : String → Except Unit Bool)
    (r : Nat → Nat) (length : Nat) : Nat → Nat → String × Nat
  | off, 0 => (generate_pin r off length, 0)
  | off, Nat.succ k =>
    let pin := generate_pin r off length
    if is_pin_unique cp query pin then (pin, 1)
    else
      let rest := generate_unique_pin_from cp query r length (off + length) k
      (rest.1, rest.2 + 1)

/-- `generate_unique_pin(length)` with `max_attempts = 10`, returning the
pin together with the number of uniqueness checks performed. -/
def generate_unique_pin (cp : Bool) (query : String → Except Unit Bool)
    (r : Nat → Nat) (off : Nat) (length : Nat) : String × Nat :=
  generate_unique_pin_from cp query r length off 10

/-! ## `ask_gemini_ai` and `store_file_with_pin` -/

/-- Source line 155: reply when the Gemini client was never initialized. -/
def MSG_AI_UNAVAILABLE : String :=
  "AI සේවාව ලබා ගත නොහැක. කරුණාකර පසුව උත්සාහ කරන්න."

/-- Source line 163: fallback when the model returned no text. -/
def MSG_AI_EMPTY : String := "AI ප්‍රතිචාරයක් ලබාගත නොහැකි විය."

/-- Source line 166: reply when the Gemini call raised. -/
def MSG_AI_ERROR : String :=
  "AI ප්‍රතිචාරයක් ලබාගැනීමේ දෝෂයක් සිදුවිය. කරුණාකර පසුව උත්සාහ කරන්න."

/-- `ask_gemini_ai(query)`: unavailable text when the client is absent;
otherwise the model's text, with Python's `response.text or default`
falling back on a missing or empty reply, and any exception converted
to the error text. -/
def ask_gemini_ai (env : Collab) (query : String) : String :=
  if !env.geminiClient then MSG_AI_UNAVAILABLE
  else
    match env.aiGenerate query with
    | Except.error _ => MSG_AI_ERROR
    | Except.ok none => MSG_AI_EMPTY
    | Except.ok (some t) => if t.data.isEmpty then MSG_AI_EMPTY else t

/-- `store_file_with_pin(file_data, filename, chat_id)`: `None` when the
Firestore collection is absent; otherwise the stored pin, or `None` when
the write raised (the function catches internally and never raises). -/
def store_file_with_pin (env : Collab) (fileData filename : String) : Option String :=
  if !env.filesCollection then none
  else env.storeResult fileData filename

/-- `get_file_by_pin(pin)` (source lines 291-316): `None` when the
Firestore collection is absent; otherwise the matching record, with a
raised query, a missing document or a decode failure all folded into
`None` by the oracle (the function catches internally and never
raises). -/
def get_file_by_pin (env : Collab) (pin : String) : Option (String × String) :=
  if !env.filesCollection then none
  else env.pinRecord pin

/-! ## Message handlers -/

/-- `handle_start`. -/
def handle_start (st : Store) (chatId : Int) : Store × List Act :=
  (st, [Act.sendMsg chatId Msg.startHelp])

/-- `handle_sendmsg`: fresh session `{state: waiting_phone, command: sendmsg}`. -/
def handle_sendmsg (st : Store) (chatId : Int) : Store × List Act :=
  (Store.set st chatId ⟨"sendmsg", "waiting_phone", none⟩,
   [Act.sendMsg chatId Msg.promptPhone])

/-- `handle_yt_download`. -/
def handle_yt_download (st : Store) (chatId : Int) : Store × List Act :=
  (Store.set st chatId ⟨"yt_download", "waiting_youtube_url", none⟩,
   [Act.sendMsg chatId Msg.promptYtUrl])

/-- `handle_download_url`. -/
def handle_download_url (st : Store) (chatId : Int) : Store × List Act :=
  (Store.set st chatId ⟨"download_url", "waiting_download_url", none⟩,
   [Act.sendMsg chatId Msg.promptUrl])

/-- `handle_upload_file`. -/
def handle_upload_file (st : Store) (chatId : Int) : Store × List Act :=
  (Store.set st chatId ⟨"upload_file", "waiting_file_upload", none⟩,
   [Act.sendMsg chatId Msg.promptUpload])

/-- `handle_get_file`. -/
def handle_get_file (st : Store) (chatId : Int) : Store × List Act :=
  (Store.set st chatId ⟨"get_file", "waiting_pin", none⟩,
   [Act.sendMsg chatId Msg.promptPin])

/-- `handle_ask_ai`. -/
def handle_ask_ai (st : Store) (chatId : Int) : Store × List Act :=
  (Store.set st chatId ⟨"ask_ai", "waiting_ai_query", none⟩,
   [Act.sendMsg chatId Msg.promptAiQuery])

/-- `handle_cancel`: delete the session when present. -/
def handle_cancel (st : Store) (chatId : Int) : Store × List Act :=
  match st chatId with
  | some _ => (Store.del st chatId, [Act.sendMsg chatId Msg.cancelled])
  | none => (st, [Act.sendMsg chatId Msg.nothingToCancel])

/-- The URL check of the video-download branch (line 403):
`"youtube.com" in text or "youtu.be" in text`. -/
def isYoutubeUrl (text : String) : Bool :=
  pyContains text "youtube.com" || pyContains text "youtu.be"

/-- `handle_text_message(chat_id, text)` (source lines 374-432), routed
by `(session.command, session.state)`.  The video/URL download branches
only record the collaborator invocation: `download_youtube_video` and
`download_file_from_url` send their own progress messages internally and
their boolean results are discarded by the caller. -/
def handle_text_message (env : Collab) (st : Store) (chatId : Int)
    (text : String) : Store × List Act :=
  match st chatId with
  | none => (st, [Act.sendMsg chatId Msg.useCommand])
  | some session =>
    if session.command = "sendmsg" then
      if session.state = "waiting_phone" then
        if !pyIsDigit text || pyLen text < 10 then
          (st, [Act.sendMsg chatId Msg.invalidPhone])
        else
          (Store.set st chatId ⟨"sendmsg", "waiting_message", some text⟩,
           [Act.sendMsg chatId Msg.promptBody])
      else if session.state = "waiting_message" then
        let success := env.relayResult session.phone text
        (Store.del st chatId,
         [Act.sendMsg chatId Msg.sendingMsg, Act.relay session.phone text,
          Act.sendMsg chatId (if success then Msg.msgSentOk else Msg.msgSentFail)])
      else (st, [])
    else if session.command = "yt_download" && session.state = "waiting_youtube_url" then
      if isYoutubeUrl text then
        (Store.del st chatId, [Act.ytFetch text])
      else
        (Store.del st chatId, [Act.sendMsg chatId Msg.invalidYtUrl])
    else if session.command = "download_url" && session.state = "waiting_download_url" then
      if pyStartsWith text "http" then
        (Store.del st chatId, [Act.urlFetch text])
      else
        (Store.del st chatId, [Act.sendMsg chatId Msg.invalidUrl])
    else if session.command = "get_file" && session.state = "waiting_pin" then
      match get_file_by_pin env (pyUpper text) with
      | some record =>
        let ok := env.docSendOk chatId record.2
        (Store.del st chatId,
         [Act.pinLookup (pyUpper text), Act.sendDoc chatId record.2,
          Act.sendMsg chatId (if ok then Msg.fileSentOk else Msg.fileSentFail)])
      | none =>
        (Store.del st chatId,
         [Act.pinLookup (pyUpper text), Act.sendMsg chatId Msg.pinNotFound])
    else if session.command = "ask_ai" && session.state = "waiting_ai_query" then
      (Store.del st chatId,
       [Act.aiQuery text, Act.sendMsg chatId (Msg.aiAnswer (ask_gemini_ai env text))])
    else
      (st, [])

/-- `handle_document(chat_id, file_id, filename)` (source lines 434-473).
A raised exception anywhere in the Telegram file-fetch preamble lands in
the `except` clause (failure message, session deleted); a `getFile`
response with `ok: false` returns early with neither deletion nor
storage; a fetched file reaches `store_file_with_pin`. -/
def handle_document (env : Collab) (st : Store) (chatId : Int)
    (fileId filename : String) : Store × List Act :=
  match st chatId with
  | none => (st, [Act.sendMsg chatId Msg.useUploadCommand])
  | some session =>
    if session.state ≠ "waiting_file_upload" then
      (st, [Act.sendMsg chatId Msg.useUploadCommand])
    else
      match env.docInfo fileId with
      | DocStep.infoRaise => (Store.del st chatId, [Act.sendMsg chatId Msg.uploadFail])
      | DocStep.infoNotOk => (st, [Act.sendMsg chatId Msg.fileInfoErr])
      | DocStep.fileRaise => (Store.del st chatId, [Act.sendMsg chatId Msg.uploadFail])
      | DocStep.fetched content =>
        match store_file_with_pin env content filename with
        | some pin =>
          (Store.del st chatId,
           [Act.storeFile content filename, Act.sendMsg chatId (Msg.uploadOk pin)])
        | none =>
          (Store.del st chatId,
           [Act.storeFile content filename, Act.sendMsg chatId Msg.uploadFail])

/-- The text-message dispatch of `process_update` (source lines 482-509):
a text starting with `/` is routed on its first whitespace-delimited
token; any other text goes to `handle_text_message`. -/
def process_text (env : Collab) (st : Store) (chatId : Int)
    (text : String) : Store × List Act :=
  if pyStartsWith text "/" then
    let command := firstToken text
    if command = "/start" then handle_start st chatId
    else if command = "/sendmsg" then handle_sendmsg st chatId
    else if command = "/yt_download" then handle_yt_download st chatId
    else if command = "/download_url" then handle_download_url st chatId
    else if command = "/upload_file" then handle_upload_file st chatId
    else if command = "/get_file" then handle_get_file st chatId
    else if command = "/ask_ai" then handle_ask_ai st chatId
    else if command = "/cancel" then handle_cancel st chatId
    else (st, [Act.sendMsg chatId Msg.unknownCommand])
  else
    handle_text_message env st chatId text

/-! ## Demo fixtures used by witnesses and counterexamples -/

/-- A collaborator environment in which every external call succeeds
except the pin lookup (no record stored). -/
def env0 : Collab :=
  ⟨fun _ _ => true, fun _ => none, fun _ _ => true, true,
   fun _ => Except.ok (some "ok"), true, fun _ _ => some "PIN123",
   fun _ => DocStep.fetched "data"⟩

/-- A collaborator environment in which neither the Gemini client nor
the Firestore collection was initialized and every collaborator call
fails, while the Telegram file fetch still yields a body, so an upload
reaches the storage step. -/
def envNoAi : Collab :=
  ⟨fun _ _ => false, fun _ => none, fun _ _ => false, false,
   fun _ => Except.error (), false, fun _ _ => none,
   fun _ => DocStep.fetched "data"⟩

/-- Store with chat 1 mid video-download (awaiting the YouTube URL). -/
def demoStoreYt : Store :=
  Store.set Store.empty 1 ⟨"yt_download", "waiting_youtube_url", none⟩

/-- Store with chat 1 mid send-message (awaiting the recipient). -/
def demoStorePhone : Store :=
  Store.set Store.empty 1 ⟨"sendmsg", "waiting_phone", none⟩

/-- Store with chat 1 mid ai-query (awaiting the query). -/
def demoStoreAsk : Store :=
  Store.set Store.empty 1 ⟨"ask_ai", "waiting_ai_query", none⟩

/-- Store with chat 1 mid file-upload (awaiting the document). -/
def demoStoreUp : Store :=
  Store.set Store.empty 1 ⟨"upload_file", "waiting_file_upload", none⟩

/-- Store with chat 1 mid file-retrieve (awaiting the pin). -/
def demoStorePin : Store :=
  Store.set Store.empty 1 ⟨"get_file", "waiting_pin", none⟩

/-! ## Store lemmas -/

/-- Reading the deleted key yields nothing. -/
theorem Store.del_self (st : Store) (c : Int) : Store.del st c c = none := by
  simp [Store.del]

/-- Reading the freshly written key yields the written session. -/
theorem Store.set_self (st : Store) (c : Int) (s : Session) :
    Store.set st c s c = some s := by
  simp [Store.set]

/-- C6: processing any of the six workflow entry commands (`/sendmsg`,
`/yt_download`, `/download_url`, `/upload_file`, `/get_file`, `/ask_ai`)
replaces whatever session the chat had with a fresh session at the new
workflow's initial state, carrying no fields, and emits exactly the new
workflow's prompt. -/
theorem command_entry_fresh_session (env : Collab) (st : Store) (chatId : Int) :
    process_text env st chatId "/sendmsg" =
      (Store.set st chatId ⟨"sendmsg", "waiting_phone", none⟩,
       [Act.sendMsg chatId Msg.promptPhone]) ∧
    process_text env st chatId "/yt_download" =
      (Store.set st chatId ⟨"yt_download", "waiting_youtube_url", none⟩,
       [Act.sendMsg chatId Msg.promptYtUrl]) ∧
    process_text env st chatId "/download_url" =
      (Store.set st chatId ⟨"download_url", "waiting_download_url", none⟩,
       [Act.sendMsg chatId Msg.promptUrl]) ∧
    process_text env st chatId "/upload_file" =
      (Store.set st chatId ⟨"upload_file", "waiting_file_upload", none⟩,
       [Act.sendMsg chatId Msg.promptUpload]) ∧
    process_text env st chatId "/get_file" =
      (Store.set st chatId ⟨"get_file", "waiting_pin", none⟩,
       [Act.sendMsg chatId Msg.promptPin]) ∧
    process_text env st chatId "/ask_ai" =
      (Store.set st chatId ⟨"ask_ai", "waiting_ai_query", none⟩,
       [Act.sendMsg chatId Msg.promptAiQuery]) :=
  ⟨rfl, rfl, rfl, rfl, rfl, rfl⟩

/-- C7: `/cancel` is idempotent and never creates a session: with a
session present it deletes it and says "cancelled"; with none it says
"nothing to cancel" and leaves the store unchanged; after any cancel the
chat has no session, so a second consecutive cancel takes the no-session
branch. -/
theorem cancel_idempotent (st : Store) (chatId : Int) :
    ((handle_cancel st chatId).1 chatId = none) ∧
    (st chatId = none →
      handle_cancel st chatId = (st, [Act.sendMsg chatId Msg.nothingToCancel])) ∧
    (∀ s, st chatId = some s →
      handle_cancel st chatId =
        (Store.del st chatId, [Act.sendMsg chatId Msg.cancelled])) ∧
    (∀ c2, st c2 = none → (handle_cancel st chatId).1 c2 = none) ∧
    ((handle_cancel (handle_cancel st chatId).1 chatId).2 =
      [Act.sendMsg chatId Msg.nothingToCancel]) := by
  cases h : st chatId with
  | none =>
    refine ⟨?_, ?_, ?_, ?_, ?_⟩ <;> simp [handle_cancel, h, Store.del]
  | some s =>
    refine ⟨?_, ?_, ?_, ?_, ?_⟩ <;> simp [handle_cancel, h, Store.del]
    exact fun c2 hc2 _ => hc2

/-- C10: a free-text event for a chat whose session is the file-upload
workflow (state `waiting_file_upload`) matches no handler branch: the
store is returned unchanged and no outbound message or collaborator call
of any kind occurs. -/
theorem upload_session_text_ignored (env : Collab) (st : Store) (chatId : Int)
    (text : String) (s : Session) (hs : st chatId = some s)
    (hc : s.command = "upload_file") (hst : s.state = "waiting_file_upload") :
    handle_text_message env st chatId text = (st, []) := by
  unfold handle_text_message
  rw [hs]
  simp [hc, hst]

/-- C1: for every chat, input and collaborator behaviour, if the run of
`handle_text_message` or of `handle_document` invoked a terminal action
(relay call, video or URL download, pin lookup, AI query, blob storage,
document send) — successful or not — then the resulting store has no
session for that chat. -/
theorem terminal_action_clears_session (env : Collab) (st : Store) (chatId : Int)
    (text fileId filename : String) :
    ((∃ a ∈ (handle_text_message env st chatId text).2, a.isTerminal = true) →
      (handle_text_message env st chatId text).1 chatId = none) ∧
    ((∃ a ∈ (handle_document env st chatId fileId filename).2, a.isTerminal = true) →
      (handle_document env st chatId fileId filename).1 chatId = none) := by
  constructor
  · unfold handle_text_message
    cases h : st chatId with
    | none => simp [Act.isTerminal]
    | some s =>
      dsimp only
      split_ifs <;>
        (try cases hr : get_file_by_pin env (pyUpper text)) <;>
          simp [Store.del, Act.isTerminal]
  · unfold handle_document
    cases h : st chatId with
    | none => simp [Act.isTerminal]
    | some s =>
      dsimp only
      split_ifs with hcond
      · simp [Act.isTerminal]
      · cases hd : env.docInfo fileId with
        | infoRaise => simp [Store.del, Act.isTerminal]
        | infoNotOk => simp [Act.isTerminal]
        | fileRaise => simp [Store.del, Act.isTerminal]
        | fetched content =>
          cases hp : store_file_with_pin env content filename <;>
            simp [hp, Store.del, Act.isTerminal]

/-- C2 counterexample: with chat 1 mid video-download, the invalid URL
"hello" is re-prompted but the session is deleted, refuting the claim
that state and fields are left unchanged. -/
theorem invalid_url_clears_session_cex :
    demoStoreYt 1 = some ⟨"yt_download", "waiting_youtube_url", none⟩ ∧
    isYoutubeUrl "hello" = false ∧
    (handle_text_message env0 demoStoreYt 1 "hello").2 =
      [Act.sendMsg 1 Msg.invalidYtUrl] ∧
    (handle_text_message env0 demoStoreYt 1 "hello").1 1 = none := by
  decide

/-- C2 amended: for a video-download session fed text failing the
YouTube check, or a url-download session fed text not starting with
`http`, the handler re-prompts with the workflow's invalid-URL message
and deletes the session (the workflow aborts rather than staying in
place). -/
theorem invalid_url_reprompts_and_clears (env : Collab) (st : Store) (chatId : Int)
    (text : String) (s : Session) (hs : st chatId = some s) :
    (s.command = "yt_download" → s.state = "waiting_youtube_url" →
      isYoutubeUrl text = false →
      handle_text_message env st chatId text =
        (Store.del st chatId, [Act.sendMsg chatId Msg.invalidYtUrl])) ∧
    (s.command = "download_url" → s.state = "waiting_download_url" →
      pyStartsWith text "http" = false →
      handle_text_message env st chatId text =
        (Store.del st chatId, [Act.sendMsg chatId Msg.invalidUrl])) := by
  unfold handle_text_message
  rw [hs]
  constructor
  · intro hc hst hurl
    simp [hc, hst, hurl]
  · intro hc hst hurl
    simp [hc, hst, hurl]

/-- C2 witness: the amended statement instantiated at chat 1 mid
video-download with input "hello". -/
theorem invalid_url_reprompts_and_clears_witness :
    handle_text_message env0 demoStoreYt 1 "hello" =
      (Store.del demoStoreYt 1, [Act.sendMsg 1 Msg.invalidYtUrl]) :=
  (invalid_url_reprompts_and_clears env0 demoStoreYt 1 "hello"
    ⟨"yt_download", "waiting_youtube_url", none⟩ (by decide)).1 rfl rfl (by decide)

/-- C3: in the send-message workflow's awaiting-recipient state, the
session advances to awaiting-body storing the text as the phone field
precisely when the text is all-digit and at least 10 characters long;
otherwise the handler re-prompts and the store is unchanged. -/
theorem recipient_validation (env : Collab) (st : Store) (chatId : Int)
    (text : String) (s : Session) (hs : st chatId = some s)
    (hc : s.command = "sendmsg") (hst : s.state = "waiting_phone") :
    (¬(pyIsDigit text = true ∧ 10 ≤ pyLen text) →
      handle_text_message env st chatId text =
        (st, [Act.sendMsg chatId Msg.invalidPhone])) ∧
    ((pyIsDigit text = true ∧ 10 ≤ pyLen text) →
      handle_text_message env st chatId text =
        (Store.set st chatId ⟨"sendmsg", "waiting_message", some text⟩,
         [Act.sendMsg chatId Msg.promptBody])) := by
  unfold handle_text_message
  rw [hs]
  constructor
  · intro h
    have hcond : (!pyIsDigit text || decide (pyLen text < 10)) = true := by
      rcases Bool.eq_false_or_eq_true (pyIsDigit text) with hd | hd
      · have hl : pyLen text < 10 := by
          by_contra hl
          exact h ⟨hd, by omega⟩
        simp [hd, hl]
      · simp [hd]
    simp [hc, hst, hcond]
  · rintro ⟨hd, hl⟩
    have hcond : (!pyIsDigit text || decide (pyLen text < 10)) = false := by
      simp [hd]
      omega
    simp [hc, hst, hcond]

/-- C3 witness: chat 1 awaiting a recipient re-prompts on "abc" and
advances on "94712345678". -/
theorem recipient_validation_witness :
    handle_text_message env0 demoStorePhone 1 "abc" =
      (demoStorePhone, [Act.sendMsg 1 Msg.invalidPhone]) ∧
    handle_text_message env0 demoStorePhone 1 "94712345678" =
      (Store.set demoStorePhone 1 ⟨"sendmsg", "waiting_message", some "94712345678"⟩,
       [Act.sendMsg 1 Msg.promptBody]) :=
  ⟨(recipient_validation env0 demoStorePhone 1 "abc"
      ⟨"sendmsg", "waiting_phone", none⟩ (by decide) rfl rfl).1 (by decide),
   (recipient_validation env0 demoStorePhone 1 "94712345678"
      ⟨"sendmsg", "waiting_phone", none⟩ (by decide) rfl rfl).2 ⟨by decide, by decide⟩⟩

/-- C9 counterexample: with chat 1 awaiting a pin, input "ab" reaches the
lookup as the upper-cased "AB", not unmodified, and the empty string is
accepted too — refuting "passed unmodified ... no validation beyond
non-empty". -/
theorem pin_passed_unmodified_cex :
    demoStorePin 1 = some ⟨"get_file", "waiting_pin", none⟩ ∧
    (handle_text_message env0 demoStorePin 1 "ab").2 =
      [Act.pinLookup "AB", Act.sendMsg 1 Msg.pinNotFound] ∧
    Act.pinLookup "ab" ∉ (handle_text_message env0 demoStorePin 1 "ab").2 ∧
    (handle_text_message env0 demoStorePin 1 "").2 =
      [Act.pinLookup "", Act.sendMsg 1 Msg.pinNotFound] := by
  decide

/-- C9 amended: a file-retrieve session awaiting a pin accepts any
free-text (no validation at all, empty included), upper-cases it and
immediately runs the pin lookup; an ai-query session awaiting a query
passes the text unmodified to the AI call; both clear the session. -/
theorem pin_query_accepted_as_is (env : Collab) (st : Store) (chatId : Int)
    (text : String) (s : Session) (hs : st chatId = some s) :
    (s.command = "get_file" → s.state = "waiting_pin" →
      (handle_text_message env st chatId text).1 chatId = none ∧
      Act.pinLookup (pyUpper text) ∈ (handle_text_message env st chatId text).2) ∧
    (s.command = "ask_ai" → s.state = "waiting_ai_query" →
      (handle_text_message env st chatId text).1 chatId = none ∧
      Act.aiQuery text ∈ (handle_text_message env st chatId text).2) := by
  unfold handle_text_message
  rw [hs]
  constructor
  · intro hc hst
    cases hr : get_file_by_pin env (pyUpper text) <;>
      simp [hc, hst, hr, Store.del]
  · intro hc hst
    simp [hc, hst, Store.del]

/-- C9 witness: the amended statement instantiated at chat 1 awaiting a
pin with input "ab". -/
theorem pin_query_accepted_as_is_witness :
    (handle_text_message env0 demoStorePin 1 "ab").1 1 = none ∧
    Act.pinLookup "AB" ∈ (handle_text_message env0 demoStorePin 1 "ab").2 :=
  (pin_query_accepted_as_is env0 demoStorePin 1 "ab"
    ⟨"get_file", "waiting_pin", none⟩ (by decide)).1 rfl rfl

/-- C8 counterexample: with neither the Gemini client nor the Firestore
collection initialized, `/ask_ai`, `/upload_file` and `/get_file` still
create a session at entry, refuting "no session created". -/
theorem unavailable_service_entry_cex :
    envNoAi.geminiClient = false ∧ envNoAi.filesCollection = false ∧
    (process_text envNoAi Store.empty 1 "/ask_ai").1 1 =
      some ⟨"ask_ai", "waiting_ai_query", none⟩ ∧
    (process_text envNoAi Store.empty 2 "/upload_file").1 2 =
      some ⟨"upload_file", "waiting_file_upload", none⟩ ∧
    (process_text envNoAi Store.empty 3 "/get_file").1 3 =
      some ⟨"get_file", "waiting_pin", none⟩ := by
  decide

/-- C8 amended: no availability check happens at command entry —
`/ask_ai`, `/upload_file` and `/get_file` each create their session
unconditionally; with the Gemini client and the Firestore collection
absent, the unavailability surfaces only when the terminal action runs
(the AI query answers with the fixed unavailable-service reply, an
uploaded document reaches the storage step and reports failure, a pin
lookup yields nothing and reports pin-not-found), after which the
session is cleared in all three workflows. -/
theorem unavailable_service_surfaces_late (env : Collab) (st : Store) (chatId : Int)
    (q pin fileId filename content : String)
    (hai : env.geminiClient = false) (hfc : env.filesCollection = false)
    (hq : pyStartsWith q "/" = false) (hpin : pyStartsWith pin "/" = false)
    (hdoc : env.docInfo fileId = DocStep.fetched content) :
    (process_text env st chatId "/ask_ai").1 chatId =
      some ⟨"ask_ai", "waiting_ai_query", none⟩ ∧
    (process_text env st chatId "/upload_file").1 chatId =
      some ⟨"upload_file", "waiting_file_upload", none⟩ ∧
    (process_text env st chatId "/get_file").1 chatId =
      some ⟨"get_file", "waiting_pin", none⟩ ∧
    process_text env ((process_text env st chatId "/ask_ai").1) chatId q =
      (Store.del ((process_text env st chatId "/ask_ai").1) chatId,
       [Act.aiQuery q, Act.sendMsg chatId (Msg.aiAnswer MSG_AI_UNAVAILABLE)]) ∧
    handle_document env ((process_text env st chatId "/upload_file").1) chatId
        fileId filename =
      (Store.del ((process_text env st chatId "/upload_file").1) chatId,
       [Act.storeFile content filename, Act.sendMsg chatId Msg.uploadFail]) ∧
    process_text env ((process_text env st chatId "/get_file").1) chatId pin =
      (Store.del ((process_text env st chatId "/get_file").1) chatId,
       [Act.pinLookup (pyUpper pin), Act.sendMsg chatId Msg.pinNotFound]) := by
  have h1 : (process_text env st chatId "/ask_ai").1 chatId =
      some ⟨"ask_ai", "waiting_ai_query", none⟩ := by
    show (handle_ask_ai st chatId).1 chatId = _
    simp [handle_ask_ai, Store.set]
  have h2 : (process_text env st chatId "/upload_file").1 chatId =
      some ⟨"upload_file", "waiting_file_upload", none⟩ := by
    show (handle_upload_file st chatId).1 chatId = _
    simp [handle_upload_file, Store.set]
  have h3 : (process_text env st chatId "/get_file").1 chatId =
      some ⟨"get_file", "waiting_pin", none⟩ := by
    show (handle_get_file st chatId).1 chatId = _
    simp [handle_get_file, Store.set]
  refine ⟨h1, h2, h3, ?_, ?_, ?_⟩
  · rw [process_text, if_neg (by simp [hq])]
    unfold handle_text_message
    rw [h1]
    simp [ask_gemini_ai, hai]
  · have hsp : store_file_with_pin env content filename = none := by
      simp [store_file_with_pin, hfc]
    unfold handle_document
    rw [h2]
    simp [hdoc, hsp]
  · rw [process_text, if_neg (by simp [hpin])]
    unfold handle_text_message
    rw [h3]
    have hgp : get_file_by_pin env (pyUpper pin) = none := by
      simp [get_file_by_pin, hfc]
    simp [hgp]

/-- C8 witness: the amended statement instantiated with the
uninitialized-collaborators environment, chat 1, query "hi", pin
"ab12cd" and an uploaded document "name.txt". -/
theorem unavailable_service_surfaces_late_witness :
    (process_text envNoAi Store.empty 1 "/ask_ai").1 1 =
      some ⟨"ask_ai", "waiting_ai_query", none⟩ ∧
    (process_text envNoAi Store.empty 1 "/upload_file").1 1 =
      some ⟨"upload_file", "waiting_file_upload", none⟩ ∧
    (process_text envNoAi Store.empty 1 "/get_file").1 1 =
      some ⟨"get_file", "waiting_pin", none⟩ ∧
    process_text envNoAi ((process_text envNoAi Store.empty 1 "/ask_ai").1) 1 "hi" =
      (Store.del ((process_text envNoAi Store.empty 1 "/ask_ai").1) 1,
       [Act.aiQuery "hi", Act.sendMsg 1 (Msg.aiAnswer MSG_AI_UNAVAILABLE)]) ∧
    handle_document envNoAi ((process_text envNoAi Store.empty 1 "/upload_file").1) 1
        "fileid" "name.txt" =
      (Store.del ((process_text envNoAi Store.empty 1 "/upload_file").1) 1,
       [Act.storeFile "data" "name.txt", Act.sendMsg 1 Msg.uploadFail]) ∧
    process_text envNoAi ((process_text envNoAi Store.empty 1 "/get_file").1) 1 "ab12cd" =
      (Store.del ((process_text envNoAi Store.empty 1 "/get_file").1) 1,
       [Act.pinLookup (pyUpper "ab12cd"), Act.sendMsg 1 Msg.pinNotFound]) :=
  unavailable_service_surfaces_late envNoAi Store.empty 1 "hi" "ab12cd" "fileid"
    "name.txt" "data" (by decide) (by decide) (by decide) (by decide) (by decide)

/-- C10 witness: chat 1 mid file-upload ignores the text "what now". -/
theorem upload_session_text_ignored_witness :
    handle_text_message env0 demoStoreUp 1 "what now" = (demoStoreUp, []) :=
  upload_session_text_ignored env0 demoStoreUp 1 "what now"
    ⟨"upload_file", "waiting_file_upload", none⟩ (by decide) rfl rfl

/-- C1 witness: chat 1 mid ai-query reaching the AI call, and chat 1 mid
file-upload reaching blob storage, both end with no session. -/
theorem terminal_action_clears_session_witness :
    (handle_text_message env0 demoStoreAsk 1 "hi").1 1 = none ∧
    (handle_document env0 demoStoreUp 1 "fileid" "name.txt").1 1 = none :=
  ⟨(terminal_action_clears_session env0 demoStoreAsk 1 "hi" "fileid" "name.txt").1
     (by decide),
   (terminal_action_clears_session env0 demoStoreUp 1 "hi" "fileid" "name.txt").2
     (by decide)⟩

/-- C7 witness: cancelling chat 1's video-download session deletes it,
and a second cancel reports nothing to cancel. -/
theorem cancel_idempotent_witness :
    handle_cancel demoStoreYt 1 =
      (Store.del demoStoreYt 1, [Act.sendMsg 1 Msg.cancelled]) ∧
    (handle_cancel (handle_cancel demoStoreYt 1).1 1).2 =
      [Act.sendMsg 1 Msg.nothingToCancel] :=
  ⟨(cancel_idempotent demoStoreYt 1).2.2.1
     ⟨"yt_download", "waiting_youtube_url", none⟩ (by decide),
   (cancel_idempotent demoStoreYt 1).2.2.2.2⟩

/-- Every draw is in the declared alphabet. -/
theorem pinChar_spec (n : Nat) :
    pinChar n ∈ PIN_CHARS ∧ ((pinChar n).isUpper || (pinChar n).isDigit) = true := by
  have hb : ∀ m, m < 36 → PIN_CHARS.getD m 'A' ∈ PIN_CHARS ∧
      ((PIN_CHARS.getD m 'A').isUpper || (PIN_CHARS.getD m 'A').isDigit) = true := by
    decide
  exact hb (n % 36) (Nat.mod_lt _ (by norm_num))

/-- `generate_pin` produces exactly `len` characters. -/
theorem generate_pin_pyLen (r : Nat → Nat) (off len : Nat) :
    pyLen (generate_pin r off len) = len := by
  simp [generate_pin, pyLen]

/-- Every character of a generated pin is an uppercase letter or digit. -/
theorem generate_pin_chars (r : Nat → Nat) (off len : Nat) :
    ∀ c ∈ (generate_pin r off len).data, (c.isUpper || c.isDigit) = true := by
  intro c hc
  simp [generate_pin] at hc
  obtain ⟨i, hi, rfl⟩ := hc
  exact (pinChar_spec _).2

/-- Invariant of the attempt loop: length, alphabet, and a check count
bounded by the fuel. -/
theorem generate_unique_pin_from_spec (cp : Bool) (q : String → Except Unit Bool)
    (r : Nat → Nat) (len : Nat) :
    ∀ n off,
      pyLen (generate_unique_pin_from cp q r len off n).1 = len ∧
      (∀ c ∈ (generate_unique_pin_from cp q r len off n).1.data,
        (c.isUpper || c.isDigit) = true) ∧
      (generate_unique_pin_from cp q r len off n).2 ≤ n := by
  intro n
  induction n with
  | zero =>
    intro off
    exact ⟨generate_pin_pyLen r off len, generate_pin_chars r off len, Nat.le_refl 0⟩
  | succ k ih =>
    intro off
    simp only [generate_unique_pin_from]
    by_cases h : is_pin_unique cp q (generate_pin r off len) = true
    · rw [if_pos h]
      exact ⟨generate_pin_pyLen r off len, generate_pin_chars r off len, by omega⟩
    · rw [if_neg h]
      have hk := ih (off + len)
      exact ⟨hk.1, hk.2.1, by have := hk.2.2; omega⟩

/-- The loop with all checks failing consumes all its fuel and falls
back to one more fresh draw. -/
theorem generate_unique_pin_from_all_fail (cp : Bool) (q : String → Except Unit Bool)
    (r : Nat → Nat) (len : Nat) :
    ∀ n off,
      (∀ k, k < n → is_pin_unique cp q (generate_pin r (off + k * len) len) = false) →
      generate_unique_pin_from cp q r len off n = (generate_pin r (off + n * len) len, n) := by
  intro n
  induction n with
  | zero =>
    intro off h
    simp [generate_unique_pin_from]
  | succ k ih =>
    intro off h
    have h0 : is_pin_unique cp q (generate_pin r off len) = false := by
      have := h 0 (Nat.succ_pos k)
      simpa using this
    simp only [generate_unique_pin_from]
    rw [if_neg (by simp [h0])]
    have hrec := ih (off + len) (fun j hj => by
      have hjj := h (j + 1) (by omega)
      have harg : off + (j + 1) * len = off + len + j * len := by ring
      rwa [harg] at hjj)
    rw [hrec]
    have harith : off + len + k * len = off + (k + 1) * len := by ring
    rw [harith]

/-- C4: `generate_unique_pin` is total for every uniqueness-oracle
behaviour (true, false or error — errors are folded to "not unique"):
it always returns a pin of exactly the configured length whose every
character is an uppercase letter or digit, and performs at most 10
uniqueness checks. -/
theorem generate_unique_pin_total (cp : Bool) (q : String → Except Unit Bool)
    (r : Nat → Nat) (off len : Nat) :
    pyLen (generate_unique_pin cp q r off len).1 = len ∧
    (∀ c ∈ (generate_unique_pin cp q r off len).1.data,
      (c.isUpper || c.isDigit) = true) ∧
    (generate_unique_pin cp q r off len).2 ≤ 10 :=
  generate_unique_pin_from_spec cp q r len 10 off

/-- C4 witness: the totality statement at length 6 with an oracle that
never confirms uniqueness; 'Y' is a character of the returned pin. -/
theorem generate_unique_pin_total_witness :
    pyLen (generate_unique_pin true (fun _ => Except.ok false) (fun n => n) 0 6).1 = 6 ∧
    ('Y'.isUpper || 'Y'.isDigit) = true ∧
    (generate_unique_pin true (fun _ => Except.ok false) (fun n => n) 0 6).2 ≤ 10 :=
  ⟨(generate_unique_pin_total true (fun _ => Except.ok false) (fun n => n) 0 6).1,
   (generate_unique_pin_total true (fun _ => Except.ok false) (fun n => n) 0 6).2.1
     'Y' (by decide),
   (generate_unique_pin_total true (fun _ => Except.ok false) (fun n => n) 0 6).2.2⟩

/-- C5 counterexample: with an oracle that never confirms uniqueness all
10 checks run, yet the returned pin differs from the candidate of the
final (10th) attempt — the source draws a fresh pin after the loop
instead of returning the last candidate. -/
theorem last_candidate_cex :
    (generate_unique_pin true (fun _ => Except.ok false) (fun n => n) 0 6).2 = 10 ∧
    (generate_unique_pin true (fun _ => Except.ok false) (fun n => n) 0 6).1 ≠
      generate_pin (fun n => n) (9 * 6) 6 := by
  decide

/-- C5 amended: if none of the 10 candidates is confirmed unique,
`generate_unique_pin` returns one further fresh, unchecked draw from the
random stream (the 11th candidate), not the last checked one. -/
theorem exhausted_attempts_fresh_draw (cp : Bool) (q : String → Except Unit Bool)
    (r : Nat → Nat) (off len : Nat)
    (h : ∀ k, k < 10 → is_pin_unique cp q (generate_pin r (off + k * len) len) = false) :
    generate_unique_pin cp q r off len = (generate_pin r (off + 10 * len) len, 10) :=
  generate_unique_pin_from_all_fail cp q r len 10 off h

/-- C5 witness: the amended statement at length 6 with an oracle that
never confirms uniqueness. -/
theorem exhausted_attempts_fresh_draw_witness :
    generate_unique_pin true (fun _ => Except.ok false) (fun n => n) 0 6 =
      (generate_pin (fun n => n) (0 + 10 * 6) 6, 10) :=
  exhausted_attempts_fresh_draw true (fun _ => Except.ok false) (fun n => n) 0 6
    (by decide)
